import Mathlib

/-!
Verification of the `validate_json` batch JSON-validator
(`src/validate_json/main.py`) against its natural-language specification.

The Python program is shallowly embedded: JSON values become the inductive
type `JValue`, Python dicts become insertion-ordered association lists,
fallible code returns `Except`, and the external jsonschema engine
(`Draft7Validator`) is the black box `Validator` carrying its
`iter_errors` function, exactly as the spec's §4.5 prescribes.
-/

/-- A parsed JSON value as produced by Python's `json.load`:
`None`, `bool`, `int`, `float`, `str`, `dict` (insertion-ordered, modelled
as an association list) or `list`.  `float` payloads are modelled as
rationals; no claim depends on float arithmetic, only on the fact that a
float is of numeric type, on its truthiness (`0.0` is falsy) and on its
`str` form being non-blank. -/
inductive JValue where
  | null : JValue
  | bool (b : Bool) : JValue
  | int (n : Int) : JValue
  | float (q : Rat) : JValue
  | str (s : String) : JValue
  | obj (kvs : List (String × JValue)) : JValue
  | arr (elems : List JValue) : JValue

namespace JValue

/-- Python `v is None`. -/
def isNull : JValue → Bool
  | .null => true
  | _ => false

/-- Python `v is None or v == ""` (main.py line 35).  Under Python `==`,
only the empty string itself compares equal to `""`: `0 == ""` and
`False == ""` are both `False`. -/
def isNoneOrEmptyStr : JValue → Bool
  | .null => true
  | .str s => s = ""
  | _ => false

/-- Python `type(v) is int or type(v) is float` (main.py line 37).
`type` is an exact check, so `True`/`False` (of type `bool`) do NOT
satisfy it even though `bool` subclasses `int`. -/
def isNumberType : JValue → Bool
  | .int _ => true
  | .float _ => true
  | _ => false

/-- Python truthiness `bool(v)`: `None`, `False`, `0`, `0.0`, `""`, `{}`
and `[]` are falsy; everything else here is truthy. -/
def truthy : JValue → Bool
  | .null => false
  | .bool b => b
  | .int n => decide (n ≠ 0)
  | .float q => decide (q ≠ 0)
  | .str s => decide (s ≠ "")
  | .obj kvs => !kvs.isEmpty
  | .arr l => !l.isEmpty

/-- Characters removed by Python's `str.strip()` (the ASCII whitespace
characters; exotic Unicode space characters do not occur in this
program's data). -/
def isPySpace (c : Char) : Bool :=
  c = ' ' || c = '\t' || c = '\n' || c = '\r' || c = '\x0b' || c = '\x0c'

/-- Whether the Python expression `str(v).strip()` is empty (falsy), as
tested on list elements in main.py line 46.  `str` of a Python string is
the string itself, so the result is blank exactly when every character is
whitespace.  For every other value `str` is never blank: `str(None) =
"None"`, `str(True)/str(False)`, `str` of an int or float always contains
digits, and `str` of any dict or list starts with a brace or bracket. -/
def strBlank : JValue → Bool
  | .str s => s.toList.all isPySpace
  | _ => false

end JValue

mutual

/-- main.py lines 30-52, `remove_empty_from_dict`: recursively removes
"empty" values.  The three top-level branches mirror
`type(d) is dict` / `type(d) is list` / `else: return d`. -/
def remove_empty_from_dict : JValue → JValue
  | .obj kvs => .obj (removeEmptyEntries kvs)
  | .arr l => .arr (removeEmptyElems l)
  | v => v

/-- The dict loop of `remove_empty_from_dict` (main.py lines 33-41):
for each key/value pair, drop it when the value `is None or == ""`;
keep it (recursing) when the value is of exact type int or float;
otherwise keep it iff `v or remove_empty_from_dict(v)` is truthy. -/
def removeEmptyEntries : List (String × JValue) → List (String × JValue)
  | [] => []
  | (k, v) :: rest =>
    if v.isNoneOrEmptyStr then removeEmptyEntries rest
    else if v.isNumberType then (k, remove_empty_from_dict v) :: removeEmptyEntries rest
    else if v.truthy || (remove_empty_from_dict v).truthy then
      (k, remove_empty_from_dict v) :: removeEmptyEntries rest
    else removeEmptyEntries rest

/-- The list comprehension of `remove_empty_from_dict` (main.py lines
43-50): keep `remove_empty_from_dict v` for every element `v` such that
`(str(v).strip() or str(remove_empty_from_dict(v)).strip()) and
(v is not None or remove_empty_from_dict(v) is not None)`. -/
def removeEmptyElems : List JValue → List JValue
  | [] => []
  | v :: rest =>
    if (!v.strBlank || !(remove_empty_from_dict v).strBlank)
        && (!v.isNull || !(remove_empty_from_dict v).isNull) then
      remove_empty_from_dict v :: removeEmptyElems rest
    else removeEmptyElems rest

end

/-- Python `d.get(k)` on a dict modelled as an association list whose keys
are unique (Python dicts cannot hold a key twice): the value at the first
matching key, if any. -/
def dictGet {α : Type} : List (String × α) → String → Option α
  | [], _ => none
  | (k, v) :: rest, key => if k = key then some v else dictGet rest key

/-- Python `d[k] = v`: replace the value in place if the key is present
(Python dicts keep the original insertion position), else append. -/
def dictInsert {α : Type} : List (String × α) → String → α → List (String × α)
  | [], key, v => [(key, v)]
  | (k, w) :: rest, key, v =>
    if k = key then (key, v) :: rest else (k, w) :: dictInsert rest key v

/-- Python `event_json.get(k)` as used in `run_checker` (main.py lines
151 and 154): a JSON `null` value parses to Python `None`, and `.get` of
an absent key is also `None`, so both collapse to `none`. -/
def pyGet (kvs : List (String × JValue)) (key : String) : Option JValue :=
  match dictGet kvs key with
  | some .null => none
  | o => o

/-- One conformance violation from the external jsonschema engine
(spec §4.5 black box): its `.message` attribute and its Python
`str(...)` form (`asString`), the sort key in `check_data`. -/
structure Violation where
  message : String
  asString : String

/-- A compiled `Draft7Validator` (spec §4.5 black box): all the program
uses of it is its `iter_errors` method, producing the violations of a
JSON value against the schema. -/
structure Validator where
  iter_errors : JValue → List Violation

/-- A value of the schema registry built by `schema_loader`: either a
compiled `Draft7Validator` or a `CorruptedSchema` instance carrying
`str(err)` of the exception caught while loading (main.py lines 20-27
and 70-76).  The registry never holds Python `None` and never holds the
`CorruptedSchema` class object itself, only instances. -/
inductive SchemaEntry where
  | validator (v : Validator)
  | corrupted (err : String)

/-- `str(CorruptedSchema(err))` (main.py line 27); `err` is already the
`str` of the wrapped exception. -/
def corruptedSchemaStr (err : String) : String :=
  "Схема некорректна: " ++ err

/-- An uncaught Python exception escaping the per-document pipeline. -/
inductive Fault where
  | attributeError
  | typeError

/-- main.py lines 91-102, `check_event_key`: its argument is
`event_json.get("event")`, so `none` covers both an absent key and an
explicit JSON `null`. -/
def check_event_key : Option JValue → List String
  | none => ["Не задана схема для проверки."]
  | some (.str _) => []
  | some _ => ["В качестве названия схемы должна быть строка"]

/-- main.py line 115 tests `schemas[name] is CorruptedSchema`: identity
with the `CorruptedSchema` CLASS object.  The registry stores compiled
validators and `CorruptedSchema(err)` INSTANCES (main.py lines 74 and
76), never the class itself, so the identity test is false for every
entry the loader can produce. -/
def isCorruptedSchemaClassObject : SchemaEntry → Bool
  | _ => false

/-- main.py lines 105-117, `check_schema_key`: `schemas.get(name) is
None` holds exactly when `name` is absent (no registry value is `None`);
the corrupted-schema branch uses the class-identity test above. -/
def check_schema_key (name : String) (schemas : List (String × SchemaEntry)) : List String :=
  match dictGet schemas name with
  | none => ["Указанной схемы не существует."]
  | some e =>
    if isCorruptedSchemaClassObject e then ["В указанной схеме выявлены ошибки"] else []

/-- main.py lines 120-128, `check_data_key`: its argument is
`event_json.get("data")`. -/
def check_data_key : Option JValue → List String
  | none => ["Не указаны данные для проверки."]
  | some _ => []

/-- The sort relation of `check_data`: Python `sorted(..., key=str)`
compares the violations' `str` forms. -/
def violationLe (a b : Violation) : Prop :=
  a.asString ≤ b.asString

instance : DecidableRel violationLe := fun a b =>
  inferInstanceAs (Decidable (a.asString ≤ b.asString))

/-- main.py lines 180-193, `check_data` on a genuinely compiled
validator: every violation message, sorted ascending by the violation's
`str` form.  Python's `sorted` is stable and ascending; an insertion
sort on the total preorder `violationLe` is extensionally the same. -/
def check_data (data : JValue) (validator : Validator) : List String :=
  ((validator.iter_errors data).insertionSort violationLe).map Violation.message

/-- The attribute access `validator.iter_errors(data)` inside
`check_data`, for a registry entry of either kind: a `CorruptedSchema`
instance has no `iter_errors` method, so Python raises `AttributeError`
(uncaught anywhere in `run_checker`). -/
def check_data_entry (data : JValue) : SchemaEntry → Except Fault (List String)
  | .validator v => .ok (check_data data v)
  | .corrupted _ => .error .attributeError

/-- One document of the event directory: its filename stem and the
outcome of `reader` (main.py lines 80-88), i.e. of `open` plus
`json.load`; `.error ()` is any exception raised there. -/
structure Document where
  stem : String
  parsed : Except Unit JValue

/-- The loop body of `run_checker` (main.py lines 139-167) for one
document: the ordered error list for that document, or the uncaught
fault that escapes the loop.  The error list accumulates in source
order: format error, event-key errors, data-key errors, schema-name
errors, conformance errors. -/
def checkDocument (schemas : List (String × SchemaEntry)) :
    Except Unit JValue → Except Fault (List String)
  | .error _ => .ok ["Данный файл не соответствует формату JSON"]
  | .ok j =>
    match j with
    | .obj kvs =>
      let event_errors := check_event_key (pyGet kvs "event")
      let data_errors := check_data_key (pyGet kvs "data")
      match pyGet kvs "event" with
      | some (.str name) =>
        -- here `event_errors = []`, so the schema-name check runs
        let schema_name_errors := check_schema_key name schemas
        match dictGet schemas name, pyGet kvs "data" with
        | some entry, some data =>
          -- `data_errors = []`; conformance runs iff `schema_name_errors` is empty
          if schema_name_errors.isEmpty then
            (check_data_entry data entry).map
              (fun msgs => event_errors ++ data_errors ++ schema_name_errors ++ msgs)
          else .ok (event_errors ++ data_errors ++ schema_name_errors)
        | _, _ =>
          -- schema absent (so `schema_name_errors ≠ []`) or data missing:
          -- `not (schema_name_errors or data_errors)` is false, no conformance
          .ok (event_errors ++ data_errors ++ schema_name_errors)
      | _ =>
        -- `event_errors ≠ []`, so neither schema-name check nor conformance runs
        .ok (event_errors ++ data_errors)
    | _ => .ok ["Файл должен содержать словарь с данными в формате JSON"]

/-- The raw result dict built at main.py lines 168-174. -/
structure Report where
  schema_errors : List (String × String)
  json_errors : List (String × List String)

/-- Append `new` to the error list stored under `stem` (the aliasing
`file_error_list = errors[event_path.stem]` plus `.extend`/`.append` in
`run_checker`). -/
def appendErrors (errors : List (String × List String)) (stem : String) (new : List String) :
    List (String × List String) :=
  match dictGet errors stem with
  | none => errors
  | some old => dictInsert errors stem (old ++ new)

/-- main.py lines 131-177, `run_checker`: initialize one empty error
list per document stem (the dict comprehension at line 138 keeps the
first occurrence of duplicate stems), run the loop body per document
(a fault aborts the whole run), then assemble `schema_errors` from the
corrupted registry entries via `f-string` = `str`. -/
def run_checker (schemas : List (String × SchemaEntry)) (docs : List Document) :
    Except Fault Report := do
  let init := docs.foldl (fun acc d =>
    match dictGet acc d.stem with
    | some _ => acc
    | none => acc ++ [(d.stem, ([] : List String))]) []
  let errors ← docs.foldlM (fun acc d => do
    let errs ← checkDocument schemas d.parsed
    pure (appendErrors acc d.stem errs)) init
  pure { schema_errors := schemas.filterMap (fun p =>
           match p.2 with
           | .corrupted err => some (p.1, corruptedSchemaStr err)
           | .validator _ => none),
         json_errors := errors }

/-- The result dict of `run_checker` as the JSON-like tree that
`remove_empty_from_dict` receives in `main` (main.py line 238): a dict
with the two keys, string values under `schema_errors` and lists of
strings under `json_errors`. -/
def reportToJValue (r : Report) : JValue :=
  .obj [("schema_errors", .obj (r.schema_errors.map (fun p => (p.1, JValue.str p.2)))),
        ("json_errors", .obj (r.json_errors.map (fun p =>
          (p.1, JValue.arr (p.2.map JValue.str)))))]

/-- The schema-errors section of `make_report` (main.py lines 203-207),
given that `result["schema_errors"]` is a dict: two lines per entry. -/
def renderSchemaErrors (ses : List (String × JValue)) : Except Fault (List String) :=
  ses.foldlM (fun acc p =>
    match p.2 with
    | .str e => .ok (acc ++ ["\tВ схеме " ++ p.1 ++ " обнаружены ошибки:\n", "\t" ++ e ++ "\n"])
    -- in this program schema-error values are always strings; other
    -- shapes never reach `make_report`
    | _ => .error .typeError) []

/-- The JSON-errors section of `make_report` (main.py lines 208-213),
given that `result["json_errors"]` is a dict: a header line per
document, then one line per error string.  In this program the values
are always lists of strings. -/
def renderJsonErrors (jes : List (String × JValue)) : Except Fault (List String) :=
  jes.foldlM (fun acc p =>
    match p.2 with
    | .arr errs => do
      let lines ← errs.foldlM (fun acc2 e =>
        match e with
        | .str m => .ok (acc2 ++ ["\t" ++ m ++ "\n"])
        | _ => .error .typeError) []
      .ok (acc ++ (("\tВ файле " ++ p.1 ++ " обнаружены ошибки:\n") :: lines))
    | _ => .error .typeError) []

/-- main.py lines 196-215, `make_report`: a timestamped header line and
a blank line, then the schema-errors section if the key `"schema_errors"`
survived pruning, then the JSON-errors section if `"json_errors"`
survived.  `main` only ever passes the pruned result dict, always a
dict; the non-dict fallback models the `TypeError` Python would raise
probing keys of a non-container. -/
def make_report (timestamp : String) (result : JValue) : Except Fault (List String) :=
  match result with
  | .obj kvs => do
    let base := ["Проведена проверка " ++ timestamp ++ "\n", "\n"]
    let s1 ← match dictGet kvs "schema_errors" with
      | none => pure ([] : List String)
      | some (.obj ses) => do
        let lines ← renderSchemaErrors ses
        pure ("Выявлены ошибки схемы:\n" :: lines)
      | some _ => .error .typeError
    let s2 ← match dictGet kvs "json_errors" with
      | none => pure ([] : List String)
      | some (.obj jes) => do
        let lines ← renderJsonErrors jes
        pure ("Выявлены ошибки JSON файла:\n" :: lines)
      | some _ => .error .typeError
    pure (base ++ s1 ++ s2)
  | _ => .error .typeError

/-- One file of the schema directory: its filename stem and the outcome
of the loading sequence at main.py lines 71-74 — `open`, `json.load`,
`Draft7Validator.check_schema`, `Draft7Validator(...)`.  `.error err`
is any exception raised at any of those steps, carrying `str(err)`. -/
structure SchemaFile where
  stem : String
  load : Except String Validator

/-- main.py lines 62-77, `schema_loader`: for each file, store the
compiled validator under the filename stem, or a `CorruptedSchema`
wrapping the caught exception; the loop always continues to the next
file. -/
def schema_loader (files : List SchemaFile) : List (String × SchemaEntry) :=
  files.foldl (fun schemas f =>
    match f.load with
    | .ok v => dictInsert schemas f.stem (.validator v)
    | .error err => dictInsert schemas f.stem (.corrupted err)) []

/-! ## Common concrete fixtures -/

/-- A compiled validator that reports no violation on any value. -/
def acceptAllValidator : Validator := ⟨fun _ => []⟩

/-- A compiled validator reporting two violations whose message order
disagrees with their `str`-form order, to exercise the sorting policy. -/
def twoViolationsValidator : Validator := ⟨fun _ => [⟨"m1", "b"⟩, ⟨"m2", "a"⟩]⟩

/-- A registry whose only schema, `bad`, failed to load. -/
def corruptedOnlyRegistry : List (String × SchemaEntry) := [("bad", .corrupted "boom")]

/-- A well-shaped document whose `event` names the corrupted schema. -/
def docReferencingBad : JValue :=
  .obj [("event", .str "bad"), ("data", .obj [("name", .str "x")])]

/-! ## Claim theorems -/

/-- C1: the claim says a document whose `event` names a registry entry
holding a CorruptedSchema gets the error "schema contains errors"
(`"В указанной схеме выявлены ошибки"`) and skips conformance checking.
The code instead tests `schemas[name] is CorruptedSchema` — identity
with the class object, false for every stored instance — so
`check_schema_key` returns no error for a corrupted entry, and the
pipeline goes on to call `iter_errors` on the CorruptedSchema instance,
raising an uncaught `AttributeError`. -/
theorem check_schema_key_corrupted_silently_passes :
    check_schema_key "bad" corruptedOnlyRegistry = [] ∧
    checkDocument corruptedOnlyRegistry (.ok docReferencingBad) =
      .error .attributeError := by
  exact ⟨rfl, rfl⟩

/-- C2: the claim says per-document processing never raises an uncaught
fault and the batch run always completes.  With a registry holding one
corrupted schema and a single well-shaped document referencing it,
`run_checker` instead aborts with the uncaught `AttributeError` from
`schemas[name].iter_errors(data)`. -/
theorem run_checker_crashes_on_corrupted_reference :
    run_checker corruptedOnlyRegistry [⟨"doc1", .ok docReferencingBad⟩] =
      .error .attributeError := by
  simp +decide [run_checker, checkDocument, check_event_key, check_data_key,
    check_schema_key, pyGet, dictGet, dictInsert, appendErrors, check_data_entry,
    isCorruptedSchemaClassObject, corruptedOnlyRegistry, docReferencingBad,
    Except.map, List.foldlM]

/-- C4: the claim says `remove_empty_from_dict` is idempotent.  On
`x = {"a": {"b": null}}` one application yields `{"a": {}}` (the inner
dict is truthy before pruning, so the key survives with an empty pruned
value) and a second application yields `{}`, so
`prune (prune x) ≠ prune x`. -/
theorem remove_empty_from_dict_not_idempotent :
    remove_empty_from_dict (.obj [("a", .obj [("b", JValue.null)])]) = .obj [("a", .obj [])] ∧
    remove_empty_from_dict (.obj [("a", .obj [])]) = .obj [] ∧
    ¬ remove_empty_from_dict (remove_empty_from_dict (.obj [("a", .obj [("b", JValue.null)])])) =
        remove_empty_from_dict (.obj [("a", .obj [("b", JValue.null)])]) := by
  refine ⟨?_, ?_, ?_⟩ <;>
    simp [remove_empty_from_dict, removeEmptyEntries, JValue.isNoneOrEmptyStr,
      JValue.isNumberType, JValue.truthy]

/-- C5 counterexample: the claim says pruning preserves every boolean
`false` and removes any container that recursively reduces to an empty
value.  In fact a `false` mapping value is removed (it is falsy, not of
exact numeric type, and prunes to itself), while `{"a": {"b": null}}`
keeps key `"a"` with the empty pruned dict. -/
theorem false_and_empty_container_policy_counterexample :
    remove_empty_from_dict (.obj [("k", JValue.bool false)]) = .obj [] ∧
    remove_empty_from_dict (.obj [("a", .obj [("b", JValue.null)])]) = .obj [("a", .obj [])] := by
  constructor <;>
    simp [remove_empty_from_dict, removeEmptyEntries, JValue.isNoneOrEmptyStr,
      JValue.isNumberType, JValue.truthy]

/-- C10 counterexample: the claim says every sequence element whose
string representation is non-blank is retained.  `null` has the
non-blank string form `"None"`, yet `[null]` prunes to `[]` (the second
conjunct of the filter drops `None` regardless of its string form). -/
theorem seq_null_nonblank_removed :
    JValue.strBlank JValue.null = false ∧
    remove_empty_from_dict (.arr [JValue.null]) = .arr [] := by
  constructor
  · rfl
  · simp [remove_empty_from_dict, removeEmptyElems, JValue.strBlank, JValue.isNull]

/-! ## Unfolding and classification helpers for the pruning function -/

theorem removeEmptyEntries_nil : removeEmptyEntries [] = [] := by
  rw [removeEmptyEntries]

theorem removeEmptyElems_nil : removeEmptyElems [] = [] := by
  rw [removeEmptyElems]

theorem removeEmptyEntries_cons (k : String) (v : JValue) (rest : List (String × JValue)) :
    removeEmptyEntries ((k, v) :: rest) =
      if v.isNoneOrEmptyStr then removeEmptyEntries rest
      else if v.isNumberType then (k, remove_empty_from_dict v) :: removeEmptyEntries rest
      else if v.truthy || (remove_empty_from_dict v).truthy then
        (k, remove_empty_from_dict v) :: removeEmptyEntries rest
      else removeEmptyEntries rest := by
  rw [removeEmptyEntries]

theorem removeEmptyElems_cons (v : JValue) (rest : List JValue) :
    removeEmptyElems (v :: rest) =
      if (!v.strBlank || !(remove_empty_from_dict v).strBlank)
          && (!v.isNull || !(remove_empty_from_dict v).isNull) then
        remove_empty_from_dict v :: removeEmptyElems rest
      else removeEmptyElems rest := by
  rw [removeEmptyElems]

/-- A truthy value is neither `None` nor the empty string. -/
theorem truthy_not_noneOrEmptyStr (v : JValue) (h : v.truthy = true) :
    v.isNoneOrEmptyStr = false := by
  cases v <;> simp_all [JValue.truthy, JValue.isNoneOrEmptyStr]

/-- A non-null value is not `None`. -/
theorem isNull_eq_false (v : JValue) (h : v ≠ JValue.null) : v.isNull = false := by
  cases v <;> simp_all [JValue.isNull]

/-! ## C5 and C10: actual removal / retention policy of the pruner -/

/-- C5 (amended): from mappings, pruning removes the values `null`,
`""`, `{}`, `[]` and also boolean `false` (a falsy, non-numeric value
whose pruned form is still falsy); any truthy mapping value is kept as
its pruned form — so a non-empty container that recursively reduces to
empty is kept as an empty container rather than removed.  From
sequences, pruning removes `null` and blank strings, while `false`, the
empty mapping and the empty sequence are preserved there. -/
theorem remove_empty_mapping_policy :
    (∀ (k : String) (v : JValue) (kvs : List (String × JValue)),
        v = JValue.null ∨ v = JValue.str "" ∨ v = JValue.obj [] ∨ v = JValue.arr [] ∨
          v = JValue.bool false →
        removeEmptyEntries ((k, v) :: kvs) = removeEmptyEntries kvs) ∧
    (∀ l : List JValue, removeEmptyElems (JValue.null :: l) = removeEmptyElems l) ∧
    (∀ (s : String) (l : List JValue), JValue.strBlank (JValue.str s) = true →
        removeEmptyElems (JValue.str s :: l) = removeEmptyElems l) ∧
    (∀ (v : JValue) (l : List JValue),
        v = JValue.bool false ∨ v = JValue.obj [] ∨ v = JValue.arr [] →
        removeEmptyElems (v :: l) = v :: removeEmptyElems l) ∧
    (∀ (k : String) (v : JValue) (kvs : List (String × JValue)), JValue.truthy v = true →
        removeEmptyEntries ((k, v) :: kvs) = (k, remove_empty_from_dict v) :: removeEmptyEntries kvs) := by
  refine ⟨?_, ?_, ?_, ?_, ?_⟩
  · rintro k v kvs (rfl | rfl | rfl | rfl | rfl) <;>
      simp [removeEmptyEntries_cons, remove_empty_from_dict, removeEmptyEntries,
        removeEmptyElems, JValue.isNoneOrEmptyStr, JValue.isNumberType, JValue.truthy]
  · intro l
    simp [removeEmptyElems_cons, remove_empty_from_dict, JValue.strBlank, JValue.isNull]
  · intro s l h
    simp [removeEmptyElems_cons, remove_empty_from_dict, JValue.isNull, h]
  · rintro v l (rfl | rfl | rfl) <;>
      simp [removeEmptyElems_cons, remove_empty_from_dict, removeEmptyEntries,
        removeEmptyElems, JValue.strBlank, JValue.isNull]
  · intro k v kvs h
    rw [removeEmptyEntries_cons, if_neg (by simp [truthy_not_noneOrEmptyStr v h])]
    by_cases hn : v.isNumberType
    · rw [if_pos hn]
    · rw [if_neg (by simp [hn]), if_pos (by simp [h])]

theorem remove_empty_mapping_policy_witness :
    (JValue.bool false = JValue.null ∨ JValue.bool false = JValue.str "" ∨
      JValue.bool false = JValue.obj [] ∨ JValue.bool false = JValue.arr [] ∨
      JValue.bool false = JValue.bool false) ∧
    removeEmptyEntries [("k", JValue.bool false)] = [] ∧
    JValue.truthy (JValue.obj [("b", JValue.null)]) = true ∧
    removeEmptyEntries [("a", JValue.obj [("b", JValue.null)])] =
      [("a", JValue.obj [])] := by
  refine ⟨Or.inr (Or.inr (Or.inr (Or.inr rfl))), ?_, rfl, ?_⟩
  · exact (remove_empty_mapping_policy.1 "k" _ []
      (Or.inr (Or.inr (Or.inr (Or.inr rfl))))).trans (by rw [removeEmptyEntries])
  · refine (remove_empty_mapping_policy.2.2.2.2 "a" (JValue.obj [("b", JValue.null)]) [] rfl).trans ?_
    simp [remove_empty_from_dict, removeEmptyEntries, JValue.isNoneOrEmptyStr,
      JValue.isNumberType, JValue.truthy]

/-- C10 (amended): sequence elements and mapping values are filtered by
different criteria: a NON-NULL sequence element whose string
representation is non-blank is always retained, as its pruned form — so
`false`, the empty mapping and the empty sequence survive pruning as
sequence elements even though each of them is removed as a mapping
value. -/
theorem seq_element_retention :
    (∀ (v : JValue) (l : List JValue), v ≠ JValue.null → JValue.strBlank v = false →
        removeEmptyElems (v :: l) = remove_empty_from_dict v :: removeEmptyElems l) ∧
    removeEmptyElems [JValue.bool false, JValue.obj [], JValue.arr []] =
      [JValue.bool false, JValue.obj [], JValue.arr []] ∧
    removeEmptyEntries [("k", JValue.bool false), ("m", JValue.obj []), ("n", JValue.arr [])] =
      [] := by
  refine ⟨?_, ?_, ?_⟩
  · intro v l hv hb
    rw [removeEmptyElems_cons, if_pos]
    simp [hb, isNull_eq_false v hv]
  · simp [removeEmptyElems_cons, remove_empty_from_dict, removeEmptyEntries,
      removeEmptyElems, JValue.strBlank, JValue.isNull]
  · simp [removeEmptyEntries_cons, remove_empty_from_dict, removeEmptyEntries_nil,
      removeEmptyElems_nil, JValue.isNoneOrEmptyStr, JValue.isNumberType, JValue.truthy]

theorem seq_element_retention_witness :
    JValue.bool false ≠ JValue.null ∧ JValue.strBlank (JValue.bool false) = false ∧
    removeEmptyElems [JValue.bool false] = [JValue.bool false] := by
  refine ⟨by simp, rfl, ?_⟩
  exact (seq_element_retention.1 (JValue.bool false) [] (by simp) rfl).trans
    (by simp [removeEmptyElems_nil, remove_empty_from_dict])

/-! ## C3: valid documents get exactly the sorted conformance messages -/

/-- C3: for a document parsing to an object whose `event` is a string
naming a valid (non-corrupted) compiled schema and whose `data` is
present and non-null, the error list is exactly the messages of the
schema's conformance violations against `data`, in ascending order of
the violations' own string representations. -/
theorem document_errors_eq_sorted_violations
    (schemas : List (String × SchemaEntry)) (kvs : List (String × JValue))
    (name : String) (data : JValue) (V : Validator)
    (hev : pyGet kvs "event" = some (.str name))
    (hdata : pyGet kvs "data" = some data)
    (hreg : dictGet schemas name = some (.validator V)) :
    checkDocument schemas (.ok (.obj kvs)) =
      .ok (((V.iter_errors data).insertionSort violationLe).map Violation.message) := by
  simp [checkDocument, hev, hdata, hreg, check_event_key, check_data_key, check_schema_key,
    isCorruptedSchemaClassObject, check_data_entry, check_data, Except.map]

theorem document_errors_eq_sorted_violations_witness :
    pyGet [("event", .str "user"), ("data", JValue.int 1)] "event" = some (.str "user") ∧
    pyGet [("event", .str "user"), ("data", JValue.int 1)] "data" = some (JValue.int 1) ∧
    dictGet [("user", SchemaEntry.validator twoViolationsValidator)] "user" =
      some (.validator twoViolationsValidator) ∧
    checkDocument [("user", SchemaEntry.validator twoViolationsValidator)]
      (.ok (.obj [("event", .str "user"), ("data", JValue.int 1)])) = .ok ["m2", "m1"] := by
  refine ⟨rfl, rfl, rfl, ?_⟩
  exact (document_errors_eq_sorted_violations
      [("user", SchemaEntry.validator twoViolationsValidator)]
      [("event", .str "user"), ("data", JValue.int 1)] "user" (JValue.int 1)
      twoViolationsValidator rfl rfl rfl).trans
    (by simp +decide [twoViolationsValidator, List.insertionSort, List.orderedInsert,
      violationLe])

/-! ## C8: rendering a pruned all-clean report -/

/-- C8: the claim says that with no corrupted schema and every
document's error list empty, pruning the result and rendering it yields
only the header.  In fact the `json_errors` dict is truthy before
pruning (it holds one entry per document, each an empty list), so
pruning keeps the key with an empty dict value, and `make_report` then
emits the JSON-errors section header `"Выявлены ошибки JSON файла:"`
with no entries under it — the output is not only the header line. -/
theorem pruned_empty_report_keeps_section_header (ts : String) :
    (run_checker [("user", .validator acceptAllValidator)]
        [⟨"doc1", .ok (.obj [("event", .str "user"),
                             ("data", .obj [("name", .str "Alice")])])⟩]).bind
      (fun r => make_report ts (remove_empty_from_dict (reportToJValue r))) =
    .ok ["Проведена проверка " ++ ts ++ "\n", "\n", "Выявлены ошибки JSON файла:\n"] := by
  have h1 : run_checker [("user", .validator acceptAllValidator)]
      [⟨"doc1", .ok (.obj [("event", .str "user"),
                           ("data", .obj [("name", .str "Alice")])])⟩] =
      .ok ⟨[], [("doc1", [])]⟩ := by
    simp +decide [run_checker, checkDocument, check_event_key, check_data_key,
      check_schema_key, pyGet, dictGet, dictInsert, appendErrors, check_data_entry,
      check_data, isCorruptedSchemaClassObject, acceptAllValidator, List.insertionSort,
      Except.map, List.foldlM]
  have h2 : remove_empty_from_dict (reportToJValue ⟨[], [("doc1", [])]⟩) =
      .obj [("json_errors", .obj [])] := by
    simp [reportToJValue, remove_empty_from_dict, removeEmptyEntries, removeEmptyElems,
      JValue.isNoneOrEmptyStr, JValue.isNumberType, JValue.truthy]
  rw [h1]
  show make_report ts (remove_empty_from_dict (reportToJValue ⟨[], [("doc1", [])]⟩)) = _
  rw [h2]
  simp +decide [make_report, dictGet, renderJsonErrors, List.foldlM, pure, Except.pure,
    bind, Except.bind]

/-! ## C9: pruning introduces no new content -/

theorem removeEmptyEntries_sublist (kvs : List (String × JValue)) :
    ∃ sub, List.Sublist sub kvs ∧
      removeEmptyEntries kvs = sub.map (fun p => (p.1, remove_empty_from_dict p.2)) := by
  induction kvs with
  | nil => exact ⟨[], List.Sublist.refl [], by rw [removeEmptyEntries_nil]; rfl⟩
  | cons hd tl ih =>
    obtain ⟨sub, hs, he⟩ := ih
    obtain ⟨k, v⟩ := hd
    rw [removeEmptyEntries_cons]
    split_ifs with h1 h2 h3
    · exact ⟨sub, List.Sublist.cons _ hs, he⟩
    · exact ⟨(k, v) :: sub, List.Sublist.cons₂ _ hs, by simp [he]⟩
    · exact ⟨(k, v) :: sub, List.Sublist.cons₂ _ hs, by simp [he]⟩
    · exact ⟨sub, List.Sublist.cons _ hs, he⟩

theorem removeEmptyElems_sublist (l : List JValue) :
    ∃ sub, List.Sublist sub l ∧ removeEmptyElems l = sub.map remove_empty_from_dict := by
  induction l with
  | nil => exact ⟨[], List.Sublist.refl [], by rw [removeEmptyElems_nil]; rfl⟩
  | cons hd tl ih =>
    obtain ⟨sub, hs, he⟩ := ih
    rw [removeEmptyElems_cons]
    split_ifs with h1
    · exact ⟨hd :: sub, List.Sublist.cons₂ _ hs, by simp [he]⟩
    · exact ⟨sub, List.Sublist.cons _ hs, he⟩

/-- C9: pruning never introduces new content.  A mapping prunes to the
pruned values of an ordered sub-collection of its own entries (so its
keys are a subset of the original keys and each surviving key holds the
pruned form of its original value); a sequence prunes to the pruned
forms of a subsequence of its elements in order; every other value is
returned unchanged. -/
theorem remove_empty_no_new_content :
    (∀ kvs : List (String × JValue), ∃ sub, List.Sublist sub kvs ∧
        remove_empty_from_dict (.obj kvs) =
          .obj (sub.map (fun p => (p.1, remove_empty_from_dict p.2)))) ∧
    (∀ l : List JValue, ∃ sub, List.Sublist sub l ∧
        remove_empty_from_dict (.arr l) = .arr (sub.map remove_empty_from_dict)) ∧
    (∀ v : JValue, (∀ kvs, v ≠ JValue.obj kvs) → (∀ l, v ≠ JValue.arr l) →
        remove_empty_from_dict v = v) := by
  refine ⟨?_, ?_, ?_⟩
  · intro kvs
    obtain ⟨sub, hs, he⟩ := removeEmptyEntries_sublist kvs
    exact ⟨sub, hs, by rw [remove_empty_from_dict, he]⟩
  · intro l
    obtain ⟨sub, hs, he⟩ := removeEmptyElems_sublist l
    exact ⟨sub, hs, by rw [remove_empty_from_dict, he]⟩
  · intro v hobj harr
    cases v with
    | obj kvs => exact absurd rfl (hobj kvs)
    | arr l => exact absurd rfl (harr l)
    | null => rfl
    | bool b => rfl
    | int n => rfl
    | float q => rfl
    | str s => rfl

theorem remove_empty_no_new_content_witness :
    (∃ sub, List.Sublist sub [("a", JValue.null), ("b", JValue.int 0)] ∧
      remove_empty_from_dict (.obj [("a", JValue.null), ("b", JValue.int 0)]) =
        .obj (sub.map (fun p => (p.1, remove_empty_from_dict p.2)))) ∧
    ((∀ kvs, JValue.int 3 ≠ JValue.obj kvs) ∧ (∀ l, JValue.int 3 ≠ JValue.arr l) ∧
      remove_empty_from_dict (JValue.int 3) = JValue.int 3) := by
  refine ⟨remove_empty_no_new_content.1 [("a", JValue.null), ("b", JValue.int 0)],
    fun kvs => by simp, fun l => by simp,
    remove_empty_no_new_content.2.2 (JValue.int 3) (fun kvs => by simp) (fun l => by simp)⟩

/-! ## C7: the schema loader builds one entry per file -/

/-- The registry entry produced for one schema file: a compiled
validator on success, or a CorruptedSchema wrapping the caught error. -/
def loadedEntry : Except String Validator → SchemaEntry
  | .ok v => .validator v
  | .error err => .corrupted err

theorem dictInsert_fresh {α : Type} (d : List (String × α)) (key : String) (v : α)
    (h : key ∉ d.map Prod.fst) : dictInsert d key v = d ++ [(key, v)] := by
  induction d with
  | nil => rfl
  | cons hd tl ih =>
    obtain ⟨k, w⟩ := hd
    simp only [List.map_cons, List.mem_cons] at h
    push_neg at h
    rw [dictInsert, if_neg (by simpa using fun e => h.1 e.symm), ih h.2]
    rfl

theorem schema_loader_go (files : List SchemaFile) (acc : List (String × SchemaEntry))
    (hnd : (files.map SchemaFile.stem).Nodup)
    (hfresh : ∀ f ∈ files, f.stem ∉ acc.map Prod.fst) :
    files.foldl (fun schemas f =>
        match f.load with
        | .ok v => dictInsert schemas f.stem (.validator v)
        | .error err => dictInsert schemas f.stem (.corrupted err)) acc =
      acc ++ files.map (fun f => (f.stem, loadedEntry f.load)) := by
  induction files generalizing acc with
  | nil => simp
  | cons f rest ih =>
    simp only [List.map_cons, List.nodup_cons] at hnd
    have hstep : (match f.load with
        | .ok v => dictInsert acc f.stem (SchemaEntry.validator v)
        | .error err => dictInsert acc f.stem (.corrupted err)) =
        acc ++ [(f.stem, loadedEntry f.load)] := by
      cases hl : f.load <;>
        simp [loadedEntry, dictInsert_fresh acc f.stem _ (hfresh f (by simp))]
    have hfr2 : ∀ g ∈ rest, g.stem ∉ (acc ++ [(f.stem, loadedEntry f.load)]).map Prod.fst := by
      intro g hg
      simp only [List.map_append, List.mem_append]
      push_neg
      refine ⟨hfresh g (List.mem_cons_of_mem f hg), ?_⟩
      simp only [List.map_cons, List.map_nil, List.mem_singleton]
      intro e
      exact hnd.1 (e ▸ List.mem_map_of_mem SchemaFile.stem hg)
    rw [List.foldl_cons, hstep, ih _ hnd.2 hfr2]
    simp

theorem dictGet_of_map_mem (l : List SchemaFile) (f : SchemaFile)
    (hmem : f ∈ l) (hnd : (l.map SchemaFile.stem).Nodup) :
    dictGet (l.map (fun g => (g.stem, loadedEntry g.load))) f.stem =
      some (loadedEntry f.load) := by
  induction l with
  | nil => simp at hmem
  | cons g rest ih =>
    simp only [List.map_cons, List.nodup_cons] at hnd
    rcases List.mem_cons.mp hmem with rfl | htl
    · simp [dictGet]
    · have hne : g.stem ≠ f.stem := fun e =>
        hnd.1 (e ▸ List.mem_map_of_mem SchemaFile.stem htl)
      simp only [List.map_cons]
      rw [dictGet, if_neg hne]
      exact ih htl hnd.2

/-- C7: when the schema files have pairwise distinct stems (one logical
schema per file), the loader maps each file to exactly one registry
entry keyed by its stem — a compiled validator on success, a
CorruptedSchema wrapping the caught error on any failure — and the
registry's keys are exactly the stems in file order (so a failing file
does not stop the loop, and no entry is dropped afterwards). -/
theorem schema_loader_total_registry (files : List SchemaFile)
    (hnd : (files.map SchemaFile.stem).Nodup) :
    (schema_loader files).map Prod.fst = files.map SchemaFile.stem ∧
    ∀ f ∈ files, dictGet (schema_loader files) f.stem = some (loadedEntry f.load) := by
  have hgo := schema_loader_go files [] hnd (by simp)
  rw [schema_loader, hgo]
  constructor
  · simp
  · intro f hf
    simpa using dictGet_of_map_mem files f hf hnd

theorem schema_loader_total_registry_witness :
    ([⟨"user", .ok acceptAllValidator⟩,
      (⟨"bad", .error "boom"⟩ : SchemaFile)].map SchemaFile.stem).Nodup ∧
    (schema_loader [⟨"user", .ok acceptAllValidator⟩, ⟨"bad", .error "boom"⟩]).map Prod.fst =
      ["user", "bad"] ∧
    dictGet (schema_loader [⟨"user", .ok acceptAllValidator⟩, ⟨"bad", .error "boom"⟩]) "bad" =
      some (.corrupted "boom") := by
  have hnd : ([⟨"user", .ok acceptAllValidator⟩,
      (⟨"bad", .error "boom"⟩ : SchemaFile)].map SchemaFile.stem).Nodup := by
    simp
  have h := schema_loader_total_registry
    [⟨"user", .ok acceptAllValidator⟩, ⟨"bad", .error "boom"⟩] hnd
  exact ⟨hnd, h.1, (h.2 ⟨"bad", .error "boom"⟩ (by simp)).trans rfl⟩

/-! ## C6: numeric leaves are never removed -/

mutual

/-- The number of numeric leaves (Python `int` or `float` values, `0`
and `0.0` included) in a JSON tree. -/
def numericLeaves : JValue → Nat
  | .int _ => 1
  | .float _ => 1
  | .obj kvs => entriesNumericLeaves kvs
  | .arr l => elemsNumericLeaves l
  | _ => 0

def entriesNumericLeaves : List (String × JValue) → Nat
  | [] => 0
  | (_, v) :: rest => numericLeaves v + entriesNumericLeaves rest

def elemsNumericLeaves : List JValue → Nat
  | [] => 0
  | v :: rest => numericLeaves v + elemsNumericLeaves rest

end

/-- A value that is `None` or the empty string holds no numeric leaf. -/
theorem numericLeaves_of_noneOrEmptyStr (v : JValue) (h : v.isNoneOrEmptyStr = true) :
    numericLeaves v = 0 := by
  cases v <;> simp_all [JValue.isNoneOrEmptyStr, numericLeaves]

/-- A falsy value of non-numeric type holds no numeric leaf: it is
`None`, a boolean, an empty string, an empty dict or an empty list. -/
theorem numericLeaves_of_falsy_nonnumber (v : JValue) (hn : v.isNumberType = false)
    (ht : v.truthy = false) : numericLeaves v = 0 := by
  cases v with
  | obj kvs =>
    cases kvs with
    | nil => simp [numericLeaves, entriesNumericLeaves]
    | cons hd tl => simp [JValue.truthy] at ht
  | arr l =>
    cases l with
    | nil => simp [numericLeaves, elemsNumericLeaves]
    | cons hd tl => simp [JValue.truthy] at ht
  | int n => simp [JValue.isNumberType] at hn
  | float q => simp [JValue.isNumberType] at hn
  | null => simp [numericLeaves]
  | bool b => simp [numericLeaves]
  | str s => simp [numericLeaves]

/-- A value whose `str` form is blank is a string, holding no numeric
leaf. -/
theorem numericLeaves_of_strBlank (v : JValue) (h : v.strBlank = true) :
    numericLeaves v = 0 := by
  cases v <;> simp_all [JValue.strBlank, numericLeaves]

/-- C6: pruning preserves the number of numeric leaves of every JSON
value — no `int` or `float` leaf (`0` and `0.0` included) is ever
removed, whether it occurs as a mapping value or a sequence element and
however deeply it is nested. -/
theorem numericLeaves_preserved (v : JValue) :
    numericLeaves (remove_empty_from_dict v) = numericLeaves v := by
  refine remove_empty_from_dict.induct
    (fun v => numericLeaves (remove_empty_from_dict v) = numericLeaves v)
    (fun l => elemsNumericLeaves (removeEmptyElems l) = elemsNumericLeaves l)
    (fun kvs => entriesNumericLeaves (removeEmptyEntries kvs) = entriesNumericLeaves kvs)
    ?_ ?_ ?_ ?_ ?_ ?_ ?_ ?_ ?_ ?_ ?_ v
  · intro kvs ih
    simp [remove_empty_from_dict, numericLeaves, ih]
  · intro l ih
    simp [remove_empty_from_dict, numericLeaves, ih]
  · intro w hobj harr
    cases w with
    | obj kvs => exact absurd rfl (hobj kvs)
    | arr l => exact absurd rfl (harr l)
    | null => rfl
    | bool b => rfl
    | int n => rfl
    | float q => rfl
    | str s => rfl
  · exact congrArg entriesNumericLeaves removeEmptyEntries_nil
  · intro k w rest h ih
    rw [removeEmptyEntries_cons, if_pos h, ih, entriesNumericLeaves,
      numericLeaves_of_noneOrEmptyStr w h]
    omega
  · intro k w rest h1 h2 ihw ih
    rw [removeEmptyEntries_cons, if_neg h1, if_pos h2, entriesNumericLeaves,
      entriesNumericLeaves, ihw, ih]
  · intro k w rest h1 h2 h3 ihw ih
    rw [removeEmptyEntries_cons, if_neg h1, if_neg h2, if_pos h3, entriesNumericLeaves,
      entriesNumericLeaves, ihw, ih]
  · intro k w rest h1 h2 h3 ihw ih
    rw [removeEmptyEntries_cons, if_neg h1, if_neg h2, if_neg h3, ih, entriesNumericLeaves]
    have ht : w.truthy = false := by
      rcases Bool.or_eq_false_iff.mp (Bool.not_eq_true _ |>.mp h3) with ⟨ha, _⟩
      exact ha
    rw [numericLeaves_of_falsy_nonnumber w (Bool.not_eq_true _ |>.mp h2) ht]
    omega
  · exact congrArg elemsNumericLeaves removeEmptyElems_nil
  · intro w rest h ihw ih
    rw [removeEmptyElems_cons, if_pos h, elemsNumericLeaves, elemsNumericLeaves, ihw, ih]
  · intro w rest h ihw ih
    rw [removeEmptyElems_cons, if_neg h, ih, elemsNumericLeaves]
    rcases Bool.and_eq_false_iff.mp (Bool.not_eq_true _ |>.mp h) with hb | hb
    · rcases Bool.or_eq_false_iff.mp hb with ⟨hb1, _⟩
      have : w.strBlank = true := by
        cases hw : w.strBlank with
        | true => rfl
        | false => simp [hw] at hb1
      rw [numericLeaves_of_strBlank w this]
      omega
    · rcases Bool.or_eq_false_iff.mp hb with ⟨hb1, _⟩
      have : w.isNull = true := by
        cases hw : w.isNull with
        | true => rfl
        | false => simp [hw] at hb1
      cases w <;> simp_all [JValue.isNull, numericLeaves]
